import Mathlib

/-!
Verification of the windowed listing engine and runtime action resolution of
lemmynator, embedded shallowly from `src/ln-main/src/ui/listing/page.rs` and
`src/ln-main/src/app.rs`.

Machine-integer conventions: `currently_focused` and `currently_displaying`
are `u8` in the source, `posts_offset` is `usize`, rectangle coordinates are
`u16`.  They are embedded as `Nat`; a cast `as u8` is written `% 256`
explicitly, and every subtraction that can underflow in Rust (a panic in
debug builds) is guarded, so the corresponding operation returns `Option`
and yields `none` exactly where the Rust code panics.
-/

namespace Lemmynator

/-- Modelled from the spec: `LemmynatorPost` is defined in
`src/ui/listing/lemmynator_post.rs`, which is not under `src/`.  `page.rs`
queries only its content shape — `post.body.is_empty()`,
`post.is_image_only()`, `post.image_is_wide()` (an `Option<bool>`) — and the
transient focus flag `post.is_focused`; those queries are modelled as
fields (spec §4.2(c): content-free item, wide image, narrow/tall image). -/
structure LemmynatorPost where
  bodyEmpty : Bool
  imageOnly : Bool
  imageIsWide : Option Bool
  isFocused : Bool
deriving DecidableEq

/-- A `ratatui` rectangle: `x`, `y`, `width`, `height` are `u16`. -/
structure Rect where
  x : Nat
  y : Nat
  width : Nat
  height : Nat
deriving DecidableEq

/-- The `Page` struct of `page.rs`.  `next_page` is an opaque
`Option<PaginationCursor>`, modelled with an opaque `Nat` payload. -/
structure Page where
  posts : List LemmynatorPost
  next_page : Option Nat
  posts_offset : Nat
  currently_focused : Nat
  currently_displaying : Nat
deriving DecidableEq

/-- `Page::new()`. -/
def Page.new : Page :=
  { posts := []
    next_page := none
    posts_offset := 0
    currently_focused := 0
    currently_displaying := 0 }

/-- `Page::scroll_up`.  Both subtractions are unchecked in the source
(`posts_offset -= currently_displaying` on `usize`,
`currently_displaying - 1` on `u8`) and panic on underflow in debug builds,
so the embedding returns `none` exactly there. -/
def Page.scrollUp (p : Page) : Option Page :=
  if p.currently_focused = 0 ∧ p.posts_offset ≠ 0 then
    if p.currently_displaying ≤ p.posts_offset ∧ 1 ≤ p.currently_displaying then
      some { p with
        posts_offset := p.posts_offset - p.currently_displaying
        currently_focused := p.currently_displaying - 1 }
    else
      none
  else if p.currently_focused ≠ 0 then
    some { p with currently_focused := p.currently_focused - 1 }
  else
    some p

/-- `Page::scroll_down`.  The `u8` increment `currently_focused += 1`
cannot overflow in any state this development considers
(`currently_focused < currently_displaying ≤ 255`), so it is embedded as
plain `Nat` successor. -/
def Page.scrollDown (p : Page) : Page :=
  if p.currently_displaying ≤ p.currently_focused + 1 then
    { p with
      posts_offset := p.posts_offset + p.currently_displaying
      currently_focused := 0 }
  else
    { p with currently_focused := p.currently_focused + 1 }

/-- `k` consecutive `scroll_down` calls. -/
def Page.scrollDownIter : Nat → Page → Page
  | 0, p => p
  | k + 1, p => (p.scrollDownIter k).scrollDown

/-- The empty-window state with a fixed capacity `c` over a given item
list: `offset = 0`, `focused_index = 0` (the state `Page::new()` reaches
once `update_count_of_currently_displaying` has set the capacity and items
have been appended; neither touches `posts_offset`/`currently_focused`). -/
def startState (c : Nat) (posts : List LemmynatorPost) : Page :=
  { posts := posts
    next_page := none
    posts_offset := 0
    currently_focused := 0
    currently_displaying := c }

/-- A concrete post with an empty body and no image (display height 5). -/
def plainPost : LemmynatorPost :=
  { bodyEmpty := true, imageOnly := false, imageIsWide := none, isFocused := false }

/-- `Page::update_count_of_currently_displaying`:
`currently_displaying = (rect.height / 8) as u8`; the `u16 → u8` cast
truncates, hence the `% 256`. -/
def capacityOf (rect : Rect) : Nat :=
  rect.height / 8 % 256

/-- The per-post display height chosen in `Page::rects_for_posts`. -/
def verticalLength (post : LemmynatorPost) : Nat :=
  if post.bodyEmpty ∧ ¬post.imageOnly then 5
  else
    match post.imageIsWide with
    | some wide => if wide then 7 else 8
    | none => 7

/-- Modelled from the spec: `Layout::vertical([Length(v), Percentage(100)])
.split(rect_pool)` is the render-surface collaborator (§6, ratatui, outside
this repository).  It carves the first `v` rows (clamped to the pool) off
the top of the pool and leaves the remainder: both sub-rectangles stay
inside the pool, so their heights sum to the pool's height. -/
def layoutSplit (v : Nat) (pool : Rect) : Rect × Rect :=
  let first := min v pool.height
  (⟨pool.x, pool.y, pool.width, first⟩,
   ⟨pool.x, pool.y + first, pool.width, pool.height - first⟩)

/-- The loop body of `Page::rects_for_posts` over the visible slice. -/
def rectsLoop : List LemmynatorPost → Rect → List Rect
  | [], _ => []
  | post :: rest, pool =>
      let split := layoutSplit (verticalLength post) pool
      split.1 :: rectsLoop rest split.2

/-- `Page::rects_for_posts`.  The source slices
`&mut self.posts[self.posts_offset..]` (panics iff `posts_offset >
posts.len()`) and then `[..self.currently_displaying as usize]` (panics iff
the window is not fully populated); both panics are covered by the single
guard `posts_offset + currently_displaying ≤ posts.len()`. -/
def Page.rectsForPosts (p : Page) (rectPool : Rect) : Option (List Rect) :=
  if p.posts_offset + p.currently_displaying ≤ p.posts.length then
    some (rectsLoop ((p.posts.drop p.posts_offset).take p.currently_displaying) rectPool)
    else
    none

/-- The `rect.y += current_offset` adjustment of
`Page::render_posts_in_layout`: when padding space is available the `i`-th
visible rectangle is pushed down by `i + 1` rows. -/
def padRects (pad : Bool) (rects : List Rect) : List Rect :=
  if pad then
    (List.range rects.length).zip rects |>.map
      (fun ir => { ir.2 with y := ir.2.y + ir.1 + 1 })
  else
    rects

/-- The retention check of `<Page as Component>::render`: once
`current_page = posts_offset / currently_displaying` exceeds 3, the two
oldest pages are drained from the front of `posts` and the offset is
shifted down by the same amount.  `self.posts.drain(0..2 * d)` panics when
`2 * d > posts.len()`, hence the guard; the `posts_offset -= 2 * d` that
follows cannot underflow because the branch condition gives
`posts_offset ≥ 4 * d`, so it is plain truncated subtraction here. -/
def evictIfNeeded (p : Page) : Option Page :=
  if 3 < p.posts_offset / p.currently_displaying then
    if 2 * p.currently_displaying ≤ p.posts.length then
      some { p with
        posts := p.posts.drop (2 * p.currently_displaying)
        posts_offset := p.posts_offset - 2 * p.currently_displaying }
    else
      none
  else
    some p

/-- The layout-and-padding tail of `<Page as Component>::render`: lay out
the visible slice, then pad when
`main_rect.height - size_occupied > currently_displaying`.
That `u16` subtraction cannot underflow because `layoutSplit` keeps every
rectangle inside the pool, so it is plain truncated subtraction here.
`render_posts_in_layout` then only toggles each visible post's transient
`is_focused` flag around the post's own draw call and draws; it does not
change the fields this development reasons about. -/
def renderLayout (p2 : Page) (rect : Rect) : Option (Page × List Rect) :=
  (p2.rectsForPosts rect).map fun rects =>
    (p2, padRects (p2.currently_displaying < rect.height - (rects.map Rect.height).sum) rects)

/-- `<Page as Component>::render`, as a state transformer returning the
updated `Page` together with the laid-out (and possibly padded) item
rectangles, in source order: capacity recomputation, retention check,
layout, padding, item draw.  `none` marks a Rust panic:
* `self.posts_offset / self.currently_displaying as usize` divides by zero
  when the recomputed capacity is `0`;
* `drain` inside the retention check panics when fewer than two pages of
  items remain (see `evictIfNeeded`);
* the slicing inside `rects_for_posts` panics when the window is not fully
  populated. -/
def Page.renderStep (p : Page) (rect : Rect) : Option (Page × List Rect) :=
  if capacityOf rect = 0 then
    none
  else
    (evictIfNeeded { p with currently_displaying := capacityOf rect }).bind fun p2 =>
      renderLayout p2 rect

/-- `Page::render_bottom_bar`: the page indicator paragraph
`(posts_offset / currently_displaying) + 1` is rendered only when
`currently_displaying != 0`; `none` means the bar is suppressed. -/
def Page.renderBottomBar (p : Page) : Option Nat :=
  if p.currently_displaying ≠ 0 then
    some (p.posts_offset / p.currently_displaying + 1)
  else
    none

/-- The `Action` enum (`src/action.rs`, not under `src/`).  Modelled from
the spec (§3): one of `Quit`, `Render`, `SwitchToInputMode`,
`SwitchToNormalMode`, `Up`, `Down`, "plus domain-specific variants",
modelled by the catch-all `other`. -/
inductive Action where
  | Quit : Action
  | Render : Action
  | SwitchToInputMode : Action
  | SwitchToNormalMode : Action
  | Up : Action
  | Down : Action
  | other : Nat → Action
deriving DecidableEq

/-- The `Mode` enum: `{Normal, Input}` (spec §3; `src/action.rs`). -/
inductive Mode where
  | Normal : Mode
  | Input : Mode
deriving DecidableEq

/-- `<Page as Component>::handle_actions`.  `Up` runs `scroll_up` (which
can panic, hence the `Option` plumbing), `Down` runs `scroll_down`; both
return `Some(Action::Render)`; every other action leaves the page untouched
and returns `None` ("not consumed"). -/
def Page.handleActions (p : Page) (a : Action) : Option (Page × Option Action) :=
  match a with
  | .Up => (p.scrollUp).map (fun p2 => (p2, some .Render))
  | .Down => some (p.scrollDown, some .Render)
  | _ => some (p, none)

/-- The top-level runtime state owned by `App` (`app.rs`): the quit flag,
the input mode, and the component tree.  Modelled from the spec:
`MainWindow` (`src/ui/main_ui.rs`, not under `src/`) is the root component
container of the Listing Engine (§2), so the tree is modelled as the
`Page` it forwards to. -/
structure AppState where
  should_quit : Bool
  mode : Mode
  window : Page
deriving DecidableEq

/-- `App::update`: resolves `Quit` / `Render` / `SwitchToInputMode` /
`SwitchToNormalMode` at the top level and forwards everything else to the
component tree; returns the updated state and the optional follow-up action
the caller pushes onto the action queue. -/
def AppState.update (s : AppState) (a : Action) : Option (AppState × Option Action) :=
  match a with
  | .Quit => some ({ s with should_quit := true }, none)
  | .Render => some (s, some .Render)
  | .SwitchToInputMode => some ({ s with mode := .Input }, some .Render)
  | .SwitchToNormalMode => some ({ s with mode := .Normal }, some .Render)
  | _ => (s.window.handleActions a).map (fun wa => ({ s with window := wa.1 }, wa.2))

/-! ## Helper lemmas -/

/-- `scroll_down` in the wrapping branch. -/
lemma scrollDown_wrap (p : Page) (h : p.currently_displaying ≤ p.currently_focused + 1) :
    p.scrollDown =
      { p with posts_offset := p.posts_offset + p.currently_displaying
               currently_focused := 0 } := by
  unfold Page.scrollDown
  rw [if_pos h]

/-- `scroll_down` in the in-window branch. -/
lemma scrollDown_step (p : Page) (h : ¬ p.currently_displaying ≤ p.currently_focused + 1) :
    p.scrollDown = { p with currently_focused := p.currently_focused + 1 } := by
  unfold Page.scrollDown
  rw [if_neg h]

/-- Closed form of `k` consecutive `scroll_down` calls from the
empty-window state: the focus cycles modulo the capacity and the offset
advances one full capacity per wrap. -/
lemma scrollDownIter_spec (c : Nat) (posts : List LemmynatorPost) (k : Nat) (hc : 0 < c) :
    ((startState c posts).scrollDownIter k).posts_offset = c * (k / c) ∧
    ((startState c posts).scrollDownIter k).currently_focused = k % c ∧
    ((startState c posts).scrollDownIter k).currently_displaying = c ∧
    ((startState c posts).scrollDownIter k).posts = posts ∧
    ((startState c posts).scrollDownIter k).next_page = none := by
  induction k with
  | zero => simp [startState, Page.scrollDownIter]
  | succ k ih =>
    obtain ⟨ho, hf, hd, hp, hn⟩ := ih
    have hmod : k % c < c := Nat.mod_lt _ hc
    have hsum := Nat.div_add_mod k c
    have hk : k + 1 = c * (k / c) + (k % c + 1) := by omega
    simp only [Page.scrollDownIter]
    by_cases h : c ≤ k % c + 1
    · have hwrap : k % c + 1 = c := by omega
      have h3 : k + 1 = c * (k / c + 1) := by rw [Nat.mul_add, Nat.mul_one]; omega
      have h4 : (k + 1) / c = k / c + 1 := by rw [h3, Nat.mul_div_cancel_left _ hc]
      have h5 : (k + 1) % c = 0 := by rw [h3, Nat.mul_mod_right]
      rw [scrollDown_wrap _ (by rw [hd, hf]; exact h)]
      dsimp only
      rw [ho, hd, h4, h5, Nat.mul_add, Nat.mul_one]
      exact ⟨rfl, rfl, rfl, hp, hn⟩
    · have hlt : k % c + 1 < c := by omega
      have h4 : (k + 1) / c = k / c := by
        rw [hk, Nat.mul_add_div hc, Nat.div_eq_of_lt hlt, Nat.add_zero]
      have h5 : (k + 1) % c = k % c + 1 := by
        rw [hk, Nat.mul_add_mod, Nat.mod_eq_of_lt hlt]
      rw [scrollDown_step _ (by rw [hd, hf]; exact h)]
      dsimp only
      rw [hf, h4, h5]
      exact ⟨ho, rfl, hd, hp, hn⟩

/-- `scroll_up` undoes one `scroll_down` in any state whose focus is
inside a positive-capacity window. -/
lemma scrollUp_scrollDown (p : Page) (hd : 0 < p.currently_displaying)
    (hf : p.currently_focused < p.currently_displaying) :
    p.scrollDown.scrollUp = some p := by
  obtain ⟨posts, np, off, foc, disp⟩ := p
  simp only at hd hf
  unfold Page.scrollDown
  by_cases h : disp ≤ foc + 1
  · rw [if_pos h]
    unfold Page.scrollUp
    dsimp only
    rw [if_pos ⟨rfl, by omega⟩, if_pos ⟨by omega, by omega⟩]
    have h1 : off + disp - disp = off := by omega
    have h2 : disp - 1 = foc := by omega
    rw [h1, h2]
  · rw [if_neg h]
    unfold Page.scrollUp
    dsimp only
    rw [if_neg (by simp), if_pos (by omega)]
    simp

/-! ## Claim theorems -/

/-- C1, counterexample to the clamping clause: with capacity 3 and
`N = 10` available items, 12 consecutive `scroll_down` calls from the
empty-window state drive `posts_offset` to 12, which exceeds the number of
available items — the code never clamps the offset. -/
theorem scrollDown_no_clamp_cex :
    ((startState 3 (List.replicate 10 plainPost)).scrollDownIter 12).posts_offset = 12 ∧
    ¬ (((startState 3 (List.replicate 10 plainPost)).scrollDownIter 12).posts_offset ≤
        ((startState 3 (List.replicate 10 plainPost)).scrollDownIter 12).posts.length) := by
  decide

/-- C1 (amended): for every fixed capacity `c > 0`, after `k` consecutive
`scroll_down` calls from the empty-window state, `focused_index = k mod c`
and `offset = c * floor(k / c)` — with no clamping: the offset is
independent of the number of available items and can exceed it.  The
concrete scenario holds as stated: from capacity 3, offset 0, focus 2, one
`scroll_down` gives offset 3 and focus 0, two more give focus 2, and one
`scroll_up` then gives focus 1. -/
theorem scrollDown_closed_form :
    (∀ (c : Nat) (posts : List LemmynatorPost) (k : Nat), 0 < c →
      ((startState c posts).scrollDownIter k).currently_focused = k % c ∧
      ((startState c posts).scrollDownIter k).posts_offset = c * (k / c)) ∧
    (let s0 : Page := { startState 3 (List.replicate 10 plainPost) with currently_focused := 2 }
     s0.scrollDown.posts_offset = 3 ∧ s0.scrollDown.currently_focused = 0 ∧
     s0.scrollDown.scrollDown.scrollDown.currently_focused = 2 ∧
     (s0.scrollDown.scrollDown.scrollDown.scrollUp).map Page.currently_focused = some 1) := by
  refine ⟨fun c posts k hc => ?_, by decide⟩
  obtain ⟨ho, hf, _, _, _⟩ := scrollDownIter_spec c posts k hc
  exact ⟨hf, ho⟩

/-- Witness for C1's amended theorem at capacity 3 after 7 calls. -/
theorem scrollDown_closed_form_witness :
    ((startState 3 []).scrollDownIter 7).currently_focused = 7 % 3 ∧
    ((startState 3 []).scrollDownIter 7).posts_offset = 3 * (7 / 3) :=
  scrollDown_closed_form.1 3 [] 7 (by decide)

/-- C2: in every state reachable from the empty-window state by
`scroll_down` calls under a fixed capacity `c > 0`, a `scroll_up`
immediately after a `scroll_down` restores the exact prior state; and in
the boundary state `offset = 0, focused_index = 0`, `scroll_up` is a
no-op. -/
theorem scrollUp_inverse :
    (∀ (c : Nat) (posts : List LemmynatorPost) (k : Nat), 0 < c →
      ((startState c posts).scrollDownIter k).scrollDown.scrollUp =
        some ((startState c posts).scrollDownIter k)) ∧
    (∀ p : Page, p.posts_offset = 0 → p.currently_focused = 0 → p.scrollUp = some p) := by
  constructor
  · intro c posts k hc
    obtain ⟨_, hf, hd, _, _⟩ := scrollDownIter_spec c posts k hc
    exact scrollUp_scrollDown _ (by omega) (by rw [hf, hd]; exact Nat.mod_lt _ hc)
  · intro p ho hf
    unfold Page.scrollUp
    rw [if_neg (by simp [ho]), if_neg (by simp [hf])]

/-- Witness for C2 at capacity 3 after 4 `scroll_down` calls, and at the
boundary state `Page::new()`. -/
theorem scrollUp_inverse_witness :
    ((startState 3 []).scrollDownIter 4).scrollDown.scrollUp =
      some ((startState 3 []).scrollDownIter 4) ∧
    Page.new.scrollUp = some Page.new :=
  ⟨scrollUp_inverse.1 3 [] 4 (by decide), scrollUp_inverse.2 Page.new rfl rfl⟩

/-- C10: whenever `focused_index = 0` and `0 < offset < capacity`, the
backward-paging branch of `scroll_up` fires and its subtraction
`posts_offset -= currently_displaying` underflows (a panic in the Rust
source); `scroll_up` is total only when backward paging finds
`offset ≥ capacity`. -/
theorem scrollUp_underflow (p : Page) (hf : p.currently_focused = 0)
    (h0 : 0 < p.posts_offset) (hlt : p.posts_offset < p.currently_displaying) :
    p.scrollUp = none := by
  unfold Page.scrollUp
  rw [if_pos ⟨hf, by omega⟩, if_neg (by omega)]

/-- Witness for C10: offset 1, capacity 3, focus 0. -/
theorem scrollUp_underflow_witness :
    (Page.mk [] none 1 0 3).scrollUp = none :=
  scrollUp_underflow _ rfl (by decide) (by decide)

/-- C7: `handle_actions` applies `scroll_up` on `Up` and `scroll_down` on
`Down`, returning `Some(Render)` in exactly those two cases (it renders
nothing itself — it only emits the `Render` follow-up), and returns `None`
for every other action with the page state untouched. -/
theorem handleActions_dispatch :
    (∀ (p q : Page), p.scrollUp = some q →
      p.handleActions .Up = some (q, some .Render)) ∧
    (∀ p : Page, p.handleActions .Down = some (p.scrollDown, some .Render)) ∧
    (∀ (p : Page) (a : Action), a ≠ .Up → a ≠ .Down →
      p.handleActions a = some (p, none)) := by
  refine ⟨fun p q h => ?_, fun p => rfl, fun p a hu hd => ?_⟩
  · simp [Page.handleActions, h]
  · cases a <;> simp_all [Page.handleActions]

/-- Witness for C7 on the boundary state (`Up` is a no-op there) and on a
domain-specific action. -/
theorem handleActions_dispatch_witness :
    Page.new.handleActions .Up = some (Page.new, some .Render) ∧
    Page.new.handleActions (.other 0) = some (Page.new, none) :=
  ⟨handleActions_dispatch.1 Page.new Page.new rfl,
   handleActions_dispatch.2.2 Page.new (.other 0) (by decide) (by decide)⟩

/-- C8: `App::update` resolves `Quit` by setting `should_quit` with no
follow-up action, and `SwitchToInputMode` / `SwitchToNormalMode` by
setting the mode and producing exactly one `Render` follow-up; in
particular from `mode = Normal`, `SwitchToInputMode` yields `mode = Input`
and queues exactly one `Render`. -/
theorem update_top_level :
    (∀ s : AppState, s.update .Quit = some ({ s with should_quit := true }, none)) ∧
    (∀ s : AppState,
      s.update .SwitchToInputMode = some ({ s with mode := .Input }, some .Render)) ∧
    (∀ s : AppState,
      s.update .SwitchToNormalMode = some ({ s with mode := .Normal }, some .Render)) ∧
    (∀ s : AppState, s.mode = .Normal →
      (s.update .SwitchToInputMode).map (fun r => (r.1.mode, r.2)) =
        some (.Input, some .Render)) :=
  ⟨fun _ => rfl, fun _ => rfl, fun _ => rfl, fun _ _ => rfl⟩

/-- Witness for C8 from `mode = Normal`. -/
theorem update_top_level_witness :
    ((AppState.mk false .Normal Page.new).update .SwitchToInputMode).map
        (fun r => (r.1.mode, r.2)) = some (.Input, some .Render) :=
  update_top_level.2.2.2 (AppState.mk false .Normal Page.new) rfl

/-- C4, counterexample: the render capacity recomputation does not keep
`focused_index < capacity`.  In a state with focus 5 under capacity 8
(invariant holds), rendering into a region of height 16 recomputes the
capacity to 2 and leaves the focus at 5, so the invariant is broken. -/
theorem focus_invariant_cex :
    (Page.mk (List.replicate 10 plainPost) none 0 5 8).currently_focused <
      (Page.mk (List.replicate 10 plainPost) none 0 5 8).currently_displaying ∧
    ((Page.mk (List.replicate 10 plainPost) none 0 5 8).renderStep
        (Rect.mk 0 0 80 16)).map
      (fun pr => (pr.1.currently_focused, pr.1.currently_displaying)) = some (5, 2) ∧
    ¬ (5 < 2) := by
  decide

/-- C4 (amended): `scroll_up` and `scroll_down` preserve
`focused_index < capacity` in every state with a positive capacity where
it holds, wrapping across window boundaries; `render`'s capacity
recomputation, however, does not restore it when the region shrinks, and
the freshly constructed `Page::new()` has `focused_index = capacity = 0`,
so the invariant is not maintained by every operation. -/
theorem scroll_preserves_focus_invariant (p : Page)
    (hd : 0 < p.currently_displaying)
    (hf : p.currently_focused < p.currently_displaying) :
    p.scrollDown.currently_focused < p.scrollDown.currently_displaying ∧
    ∀ q : Page, p.scrollUp = some q →
      q.currently_focused < q.currently_displaying := by
  obtain ⟨posts, np, off, foc, disp⟩ := p
  simp only at hd hf
  constructor
  · unfold Page.scrollDown
    by_cases h : disp ≤ foc + 1
    · rw [if_pos h]
      exact hd
    · rw [if_neg h]
      dsimp only
      omega
  · intro q hq
    unfold Page.scrollUp at hq
    by_cases h1 : foc = 0 ∧ off ≠ 0
    · by_cases h2 : disp ≤ off ∧ 1 ≤ disp
      · rw [if_pos h1, if_pos h2] at hq
        simp only [Option.some.injEq] at hq
        subst hq
        dsimp only
        omega
      · rw [if_pos h1, if_neg h2] at hq
        exact Option.noConfusion hq
    · rw [if_neg h1] at hq
      by_cases h3 : foc ≠ 0
      · rw [if_pos h3] at hq
        simp only [Option.some.injEq] at hq
        subst hq
        dsimp only
        omega
      · rw [if_neg h3] at hq
        simp only [Option.some.injEq] at hq
        subst hq
        exact hf

/-- Witness for C4's amended theorem at capacity 3, focus 2, offset 3. -/
theorem scroll_preserves_focus_invariant_witness :
    (Page.mk [] none 3 2 3).scrollDown.currently_focused <
      (Page.mk [] none 3 2 3).scrollDown.currently_displaying ∧
    ∀ q : Page, (Page.mk [] none 3 2 3).scrollUp = some q →
      q.currently_focused < q.currently_displaying :=
  scroll_preserves_focus_invariant (Page.mk [] none 3 2 3) (by decide) (by decide)

/-- C3: when the current page index `offset / capacity` exceeds the
retention threshold 3 and the window is fully populated, `render` drops
exactly the two oldest pages' worth of items (`2 * capacity`) from the
front of `items`, decreases `offset` by exactly that amount, and the
visible window slice is unchanged by the eviction, so the resident item
count falls by exactly `2 * capacity`. -/
theorem render_eviction (p : Page) (rect : Rect)
    (hd : 0 < capacityOf rect)
    (hpage : 3 < p.posts_offset / capacityOf rect)
    (hlen : p.posts_offset + capacityOf rect ≤ p.posts.length) :
    (p.renderStep rect).map Prod.fst =
      some { p with currently_displaying := capacityOf rect
                    posts := p.posts.drop (2 * capacityOf rect)
                    posts_offset := p.posts_offset - 2 * capacityOf rect } ∧
    ((p.posts.drop (2 * capacityOf rect)).drop
        (p.posts_offset - 2 * capacityOf rect)).take (capacityOf rect) =
      (p.posts.drop p.posts_offset).take (capacityOf rect) ∧
    (p.posts.drop (2 * capacityOf rect)).length =
      p.posts.length - 2 * capacityOf rect := by
  have h4d : 4 * capacityOf rect ≤ p.posts_offset := by
    have := (Nat.le_div_iff_mul_le hd).mp (by omega : 4 ≤ p.posts_offset / capacityOf rect)
    omega
  have hdrain : 2 * capacityOf rect ≤ p.posts.length := by omega
  refine ⟨?_, ?_, by rw [List.length_drop]⟩
  · unfold Page.renderStep evictIfNeeded
    rw [if_neg (by omega)]
    rw [if_pos hpage, if_pos hdrain, Option.some_bind]
    unfold renderLayout Page.rectsForPosts
    rw [if_pos (by rw [List.length_drop]; dsimp only; omega)]
    rfl
  · rw [List.drop_drop]
    have : 2 * capacityOf rect + (p.posts_offset - 2 * capacityOf rect) = p.posts_offset := by
      omega
    rw [this]

/-- Witness for C3: six items, offset 4, region of height 8 (capacity 1). -/
theorem render_eviction_witness :
    ((Page.mk (List.replicate 6 plainPost) none 4 0 1).renderStep
        (Rect.mk 0 0 80 8)).map Prod.fst =
      some { Page.mk (List.replicate 6 plainPost) none 4 0 1 with
              currently_displaying := capacityOf (Rect.mk 0 0 80 8)
              posts := (List.replicate 6 plainPost).drop (2 * capacityOf (Rect.mk 0 0 80 8))
              posts_offset := 4 - 2 * capacityOf (Rect.mk 0 0 80 8) } ∧
    (((List.replicate 6 plainPost).drop (2 * capacityOf (Rect.mk 0 0 80 8))).drop
        (4 - 2 * capacityOf (Rect.mk 0 0 80 8))).take (capacityOf (Rect.mk 0 0 80 8)) =
      ((List.replicate 6 plainPost).drop 4).take (capacityOf (Rect.mk 0 0 80 8)) ∧
    ((List.replicate 6 plainPost).drop (2 * capacityOf (Rect.mk 0 0 80 8))).length =
      (List.replicate 6 plainPost).length - 2 * capacityOf (Rect.mk 0 0 80 8) :=
  render_eviction (Page.mk (List.replicate 6 plainPost) none 4 0 1)
    (Rect.mk 0 0 80 8) (by decide) (by decide) (by decide)

/-- C5: rendering into a region whose height yields capacity 0 always
fails — `render` computes `posts_offset / currently_displaying` before any
guard, a division by zero (Rust panic); it does not skip the layout
gracefully (only `render_bottom_bar` carries the zero-capacity guard). -/
theorem render_zero_capacity_panics (p : Page) (rect : Rect)
    (h : capacityOf rect = 0) : p.renderStep rect = none := by
  unfold Page.renderStep
  rw [if_pos h]

/-- Witness for C5: `Page::new()` rendered into a height-7 region. -/
theorem render_zero_capacity_panics_witness :
    Page.new.renderStep (Rect.mk 0 0 80 7) = none :=
  render_zero_capacity_panics Page.new (Rect.mk 0 0 80 7) (by decide)

/-- C6, counterexample: with no items loaded and a height-8 region
(capacity 1), the window is not fully populated
(`items.len() = 0 < offset + capacity = 1`) and `render` fails (the slice
`[..capacity]` panics) instead of truncating to the available tail. -/
theorem render_no_truncation_cex :
    Page.new.posts.length <
      Page.new.posts_offset + capacityOf (Rect.mk 0 0 80 8) ∧
    Page.new.renderStep (Rect.mk 0 0 80 8) = none := by
  decide

/-- C6 (amended): whenever `items.len() < offset + capacity` (the window
not fully populated) and the capacity is positive, `render` fails — the
slicing `[offset..][..capacity]` panics rather than truncating the visible
slice; `render` only succeeds when `offset + capacity ≤ items.len()`. -/
theorem render_partial_window_fails (p : Page) (rect : Rect)
    (h0 : capacityOf rect ≠ 0)
    (hlt : p.posts.length < p.posts_offset + capacityOf rect) :
    p.renderStep rect = none := by
  unfold Page.renderStep evictIfNeeded
  rw [if_neg h0]
  by_cases hpage : 3 < p.posts_offset / capacityOf rect
  · have h4d : 4 * capacityOf rect ≤ p.posts_offset :=
      (Nat.le_div_iff_mul_le (by omega)).mp (by omega : 4 ≤ p.posts_offset / capacityOf rect)
    by_cases hdrain : 2 * capacityOf rect ≤ p.posts.length
    · rw [if_pos hpage, if_pos hdrain, Option.some_bind]
      unfold renderLayout Page.rectsForPosts
      rw [if_neg (by rw [List.length_drop]; dsimp only; omega)]
      rfl
    · rw [if_pos hpage, if_neg hdrain]
      rfl
  · rw [if_neg hpage, Option.some_bind]
    unfold renderLayout Page.rectsForPosts
    rw [if_neg (by dsimp only; omega)]
    rfl

/-- Witness for C6's amended theorem: `Page::new()` under capacity 1. -/
theorem render_partial_window_fails_witness :
    Page.new.renderStep (Rect.mk 0 0 80 8) = none :=
  render_partial_window_fails Page.new (Rect.mk 0 0 80 8) (by decide) (by decide)

/-- Replacing `currently_displaying` by its current value is the identity
(structure eta). -/
lemma setDisplaying_self (p : Page) (d : Nat) (h : p.currently_displaying = d) :
    { p with currently_displaying := d } = p := by
  cases p
  simp only at h
  rw [h]

/-- `render` without the zero-capacity division: capacity update, retention
check, then layout. -/
lemma renderStep_unfold (p : Page) (rect : Rect) (h0 : capacityOf rect ≠ 0) :
    p.renderStep rect =
      (evictIfNeeded { p with currently_displaying := capacityOf rect }).bind
        (fun p2 => renderLayout p2 rect) := by
  unfold Page.renderStep
  rw [if_neg h0]

/-- The retention check is the identity below the threshold. -/
lemma evictIfNeeded_no (p : Page)
    (h : ¬ 3 < p.posts_offset / p.currently_displaying) :
    evictIfNeeded p = some p := by
  unfold evictIfNeeded
  rw [if_neg h]

/-- The retention check drops two pages above the threshold. -/
lemma evictIfNeeded_yes (p : Page)
    (h : 3 < p.posts_offset / p.currently_displaying)
    (hdrain : 2 * p.currently_displaying ≤ p.posts.length) :
    evictIfNeeded p =
      some { p with
        posts := p.posts.drop (2 * p.currently_displaying)
        posts_offset := p.posts_offset - 2 * p.currently_displaying } := by
  unfold evictIfNeeded
  rw [if_pos h, if_pos hdrain]

/-- The layout tail succeeds exactly on a fully populated window. -/
lemma renderLayout_eq (p2 : Page) (rect : Rect)
    (hlen : p2.posts_offset + p2.currently_displaying ≤ p2.posts.length) :
    renderLayout p2 rect =
      some (p2,
        padRects
          (p2.currently_displaying <
            rect.height -
              (((rectsLoop ((p2.posts.drop p2.posts_offset).take p2.currently_displaying)
                  rect).map Rect.height).sum))
          (rectsLoop ((p2.posts.drop p2.posts_offset).take p2.currently_displaying) rect)) := by
  unfold renderLayout Page.rectsForPosts
  rw [if_pos hlen]
  rfl

/-- C9, counterexample: with capacity 1, offset 6 and seven loaded items,
the first `render` evicts two pages (offset becomes 4) and the second
`render` with the same region and unchanged items evicts again (offset
becomes 2): the two calls do not produce the same offset. -/
theorem render_not_idempotent_cex :
    ((Page.mk (List.replicate 7 plainPost) none 6 0 1).renderStep
        (Rect.mk 0 0 80 8)).bind
      (fun pr => (pr.1.renderStep (Rect.mk 0 0 80 8)).map
        (fun pr2 => (pr.1.posts_offset, pr2.1.posts_offset))) = some (4, 2) ∧
    (4 : Nat) ≠ 2 := by
  decide

/-- C9 (amended): `render` is idempotent on an unchanged region and
unchanged items provided the page index `offset / capacity` is at most 5,
so that the at-most-one eviction of the first call lands within the
retention threshold: the first call succeeds and the second call returns
the very same page state and layout rectangles.  (When `offset / capacity
≥ 6`, the second call evicts again, as the counterexample shows.) -/
theorem render_idempotent (p : Page) (rect : Rect)
    (h0 : capacityOf rect ≠ 0)
    (hlen : p.posts_offset + capacityOf rect ≤ p.posts.length)
    (hpage : p.posts_offset / capacityOf rect ≤ 5) :
    (p.renderStep rect).isSome = true ∧
    ((p.renderStep rect).bind fun pr => pr.1.renderStep rect) = p.renderStep rect := by
  have hd : 0 < capacityOf rect := by omega
  by_cases hev : 3 < p.posts_offset / capacityOf rect
  · -- the first call evicts once and lands below the threshold
    have h4d : 4 * capacityOf rect ≤ p.posts_offset :=
      (Nat.le_div_iff_mul_le hd).mp (by omega)
    have h6d : p.posts_offset < 6 * capacityOf rect := by
      have := (Nat.div_lt_iff_lt_mul hd).mp (by omega : p.posts_offset / capacityOf rect < 6)
      omega
    have hdrain : 2 * capacityOf rect ≤ p.posts.length := by omega
    have hstep : p.renderStep rect =
        renderLayout { p with currently_displaying := capacityOf rect
                              posts := p.posts.drop (2 * capacityOf rect)
                              posts_offset := p.posts_offset - 2 * capacityOf rect } rect := by
      rw [renderStep_unfold p rect h0,
        evictIfNeeded_yes _ (by dsimp only; exact hev) (by dsimp only; exact hdrain),
        Option.some_bind]
    have hlen2 : (p.posts_offset - 2 * capacityOf rect) + capacityOf rect ≤
        (p.posts.drop (2 * capacityOf rect)).length := by
      rw [List.length_drop]
      omega
    have hlay := renderLayout_eq
      { p with currently_displaying := capacityOf rect
               posts := p.posts.drop (2 * capacityOf rect)
               posts_offset := p.posts_offset - 2 * capacityOf rect } rect
      (by dsimp only; exact hlen2)
    have hsecond : ({ p with currently_displaying := capacityOf rect
                             posts := p.posts.drop (2 * capacityOf rect)
                             posts_offset := p.posts_offset - 2 * capacityOf rect
                      : Page }).renderStep rect =
        renderLayout { p with currently_displaying := capacityOf rect
                              posts := p.posts.drop (2 * capacityOf rect)
                              posts_offset := p.posts_offset - 2 * capacityOf rect } rect := by
      rw [renderStep_unfold _ rect h0, setDisplaying_self _ _ (by dsimp only),
        evictIfNeeded_no _ (by
          dsimp only
          have hlt4 : p.posts_offset - 2 * capacityOf rect < 4 * capacityOf rect := by omega
          have := (Nat.div_lt_iff_lt_mul hd).mpr hlt4
          omega),
        Option.some_bind]
    refine ⟨by rw [hstep, hlay]; rfl, ?_⟩
    rw [hstep, hlay, Option.some_bind, hsecond, hlay]
  · -- no eviction: the first call leaves the state unchanged apart from
    -- the recomputed capacity
    have hstep : p.renderStep rect =
        renderLayout { p with currently_displaying := capacityOf rect } rect := by
      rw [renderStep_unfold p rect h0, evictIfNeeded_no _ (by dsimp only; exact hev),
        Option.some_bind]
    have hlay := renderLayout_eq { p with currently_displaying := capacityOf rect } rect
      (by dsimp only; exact hlen)
    have hsecond : ({ p with currently_displaying := capacityOf rect : Page }).renderStep
        rect = renderLayout { p with currently_displaying := capacityOf rect } rect := by
      rw [renderStep_unfold _ rect h0, setDisplaying_self _ _ (by dsimp only),
        evictIfNeeded_no _ (by dsimp only; exact hev), Option.some_bind]
    refine ⟨by rw [hstep, hlay]; rfl, ?_⟩
    rw [hstep, hlay, Option.some_bind, hsecond, hlay]

/-- Witness for C9's amended theorem: offset 4, five items, capacity 1
(one eviction on the first call, none on the second). -/
theorem render_idempotent_witness :
    ((Page.mk (List.replicate 5 plainPost) none 4 0 1).renderStep
        (Rect.mk 0 0 80 8)).isSome = true ∧
    (((Page.mk (List.replicate 5 plainPost) none 4 0 1).renderStep
        (Rect.mk 0 0 80 8)).bind fun pr => pr.1.renderStep (Rect.mk 0 0 80 8)) =
      (Page.mk (List.replicate 5 plainPost) none 4 0 1).renderStep (Rect.mk 0 0 80 8) :=
  render_idempotent (Page.mk (List.replicate 5 plainPost) none 4 0 1)
    (Rect.mk 0 0 80 8) (by decide) (by decide) (by decide)

end Lemmynator
